import Mathlib

/-!
# Verification of the LLM backend adapter layer (`avatar/tools/react/api.py`)

This file gives a shallow embedding of the dispatch / retry / normalization
logic of the repository's single source module and proves the spec's claims
about it.

The embedding follows the Python source line by line:

* strings are `String` / `List Char`, Python `str.find` / `str.rfind` /
  slicing / `in` / `lower` are modelled by executable functions with Python's
  exact semantics (`-1` sentinel, negative-index slice normalization);
* `json.loads` is modelled by an executable recursive-descent JSON parser
  (`json_loads`) over the JSON grammar restricted to null, booleans, integer
  numbers, strings with the single-character escapes, arrays and objects —
  the fragment exercised by this code path; it fails (returns `none`) on any
  input that is not a complete JSON document, as the real parser does;
* each backend caller's retry loop becomes a structurally identical recursive
  function producing a `RunResult`: the returned value or raised exception,
  the number of backend invocations made and the number of sleeps performed;
* the backend itself (the vendor SDK call) is an oracle
  `Backend := Nat → Except PyErr Resp` giving each attempt's outcome;
* Python's scoping of the `except ... as e` target is modelled faithfully:
  the name is deleted when the except clause exits, so a variable that was
  pre-initialized (`e = None`) is unbound again after the clause runs; a
  `raise` of an unbound name is `Raised.unboundLocal`, a `raise None` is
  `Raised.raiseNone`.
-/

/-! ## Python string primitives -/

/-- Index of the first occurrence of `c` in `s`, if any. -/
def pyFindAux (c : Char) : List Char → Option Nat
  | [] => none
  | x :: xs => if x = c then some 0 else (pyFindAux c xs).map (· + 1)

/-- Python `s.find(c)`: first index of `c`, or `-1`. -/
def pyFind (s : List Char) (c : Char) : Int :=
  match pyFindAux c s with
  | none => -1
  | some n => n

/-- Python `s.rfind(c)`: last index of `c`, or `-1`. -/
def pyRfind (s : List Char) (c : Char) : Int :=
  match pyFindAux c s.reverse with
  | none => -1
  | some n => (s.length - 1 - n : Nat)

/-- Normalize one Python slice bound against a length: negative indices count
from the end and everything is clamped into `[0, len]`. -/
def pySliceNorm (len : Nat) (i : Int) : Nat :=
  if i < 0 then (i + len).toNat else min i.toNat len

/-- Python `s[a:b]` for character lists. -/
def pySlice (s : List Char) (a b : Int) : List Char :=
  (s.take (pySliceNorm s.length b)).drop (pySliceNorm s.length a)

/-- Python `pat in s` (substring containment). -/
def containsSub (pat : List Char) : List Char → Bool
  | [] => pat.isEmpty
  | c :: cs => pat.isPrefixOf (c :: cs) || containsSub pat cs

/-- Python `s.lower()` (ASCII case folding, which is all this code needs). -/
def pyLower (s : String) : String :=
  ⟨s.data.map Char.toLower⟩

/-! ## A model of Python `json.loads` -/

/-- JSON values, with integer numbers (the fragment this adapter exercises). -/
inductive JsonValue where
  | jnull : JsonValue
  | jbool : Bool → JsonValue
  | jnum : Int → JsonValue
  | jstr : List Char → JsonValue
  | jarr : List JsonValue → JsonValue
  | jobj : List (List Char × JsonValue) → JsonValue

/-- JSON whitespace. -/
def isJsonWs (c : Char) : Bool :=
  c = ' ' || c = '\t' || c = '\n' || c = '\r'

/-- Skip leading JSON whitespace. -/
def skipWs : List Char → List Char
  | [] => []
  | c :: cs => if isJsonWs c then skipWs cs else c :: cs

/-- Parse the body of a JSON string after the opening quote; returns the
decoded characters and the remaining input after the closing quote. -/
def parseStr : List Char → Option (List Char × List Char)
  | [] => none
  | c :: cs =>
    if c = '"' then some ([], cs)
    else if c = '\\' then
      match cs with
      | [] => none
      | e :: cs' =>
        let dec : Option Char :=
          if e = '"' then some '"'
          else if e = '\\' then some '\\'
          else if e = '/' then some '/'
          else if e = 'n' then some '\n'
          else if e = 't' then some '\t'
          else if e = 'r' then some '\r'
          else none
        match dec with
        | none => none
        | some d => (parseStr cs').map (fun p => (d :: p.1, p.2))
    else (parseStr cs).map (fun p => (c :: p.1, p.2))

/-- Parse a run of decimal digits left to right, folding into `acc`; returns
the accumulated value and the rest of the input. -/
def parseDigitsAcc (acc : Nat) : List Char → Nat × List Char
  | [] => (acc, [])
  | c :: cs =>
    if c.isDigit then parseDigitsAcc (acc * 10 + (c.toNat - '0'.toNat)) cs
    else (acc, c :: cs)

/-- Parse a JSON integer number (optional minus, digit run). -/
def parseNum : List Char → Option (Int × List Char)
  | [] => none
  | c :: cs =>
    if c = '-' then
      match cs with
      | [] => none
      | d :: ds =>
        if d.isDigit then
          let p := parseDigitsAcc (d.toNat - '0'.toNat) ds
          some (-(p.1 : Int), p.2)
        else none
    else if c.isDigit then
      let p := parseDigitsAcc (c.toNat - '0'.toNat) cs
      some ((p.1 : Int), p.2)
    else none

mutual

/-- Parse one JSON value; `fuel` bounds nesting depth. -/
def parseValue : Nat → List Char → Option (JsonValue × List Char)
  | 0, _ => none
  | fuel + 1, s =>
    match skipWs s with
    | [] => none
    | c :: cs =>
      if c = '"' then (parseStr cs).map (fun p => (.jstr p.1, p.2))
      else if c = '\x7b' then
        match skipWs cs with
        | '\x7d' :: rest => some (.jobj [], rest)
        | rest =>
          match parseMembers fuel rest with
          | some (kvs, rest') =>
            match skipWs rest' with
            | '\x7d' :: rest'' => some (.jobj kvs, rest'')
            | _ => none
          | none => none
      else if c = '[' then
        match skipWs cs with
        | ']' :: rest => some (.jarr [], rest)
        | rest =>
          match parseElems fuel rest with
          | some (xs, rest') =>
            match skipWs rest' with
            | ']' :: rest'' => some (.jarr xs, rest'')
            | _ => none
          | none => none
      else if ['t', 'r', 'u', 'e'].isPrefixOf (c :: cs) then
        some (.jbool true, (c :: cs).drop 4)
      else if ['f', 'a', 'l', 's', 'e'].isPrefixOf (c :: cs) then
        some (.jbool false, (c :: cs).drop 5)
      else if ['n', 'u', 'l', 'l'].isPrefixOf (c :: cs) then
        some (.jnull, (c :: cs).drop 4)
      else (parseNum (c :: cs)).map (fun p => (.jnum p.1, p.2))

/-- Parse a nonempty comma-separated list of `"key": value` members. -/
def parseMembers : Nat → List Char → Option (List (List Char × JsonValue) × List Char)
  | 0, _ => none
  | fuel + 1, s =>
    match skipWs s with
    | '"' :: cs =>
      match parseStr cs with
      | none => none
      | some (key, rest) =>
        match skipWs rest with
        | ':' :: rest' =>
          match parseValue fuel rest' with
          | none => none
          | some (v, rest'') =>
            match skipWs rest'' with
            | ',' :: rest''' =>
              match parseMembers fuel rest''' with
              | none => none
              | some (kvs, r) => some ((key, v) :: kvs, r)
            | r => some ([(key, v)], r)
        | _ => none
    | _ => none

/-- Parse a nonempty comma-separated list of array elements. -/
def parseElems : Nat → List Char → Option (List JsonValue × List Char)
  | 0, _ => none
  | fuel + 1, s =>
    match parseValue fuel s with
    | none => none
    | some (v, rest) =>
      match skipWs rest with
      | ',' :: rest' =>
        match parseElems fuel rest' with
        | none => none
        | some (xs, r) => some (v :: xs, r)
      | r => some ([v], r)

end

/-- Model of Python `json.loads`: parse a complete JSON document; anything
else (leading junk, trailing junk, empty input) raises, modelled as `none`. -/
def json_loads (s : String) : Option JsonValue :=
  match parseValue (s.data.length + 1) s.data with
  | none => none
  | some (v, rest) => if skipWs rest = [] then some v else none

/-! ## Conversation data model -/

/-- One role-tagged chat turn, as the OpenAI / Anthropic callers use it. -/
structure Turn where
  role : String
  content : String
deriving DecidableEq

/-- One turn in the Gemini wire format: role plus a `parts` list. -/
structure GTurn where
  role : String
  parts : List String
deriving DecidableEq

/-- A request message: either a bare prompt string or a turn list. -/
abbrev Message := String ⊕ List Turn

/-- The JSON instruction prefix of `get_gpt_output`. -/
def jsonPrefixGpt : String := "You are a helpful assistant designed to output JSON. "

/-- The JSON instruction prefix of `complete_text_claude` / `complete_text_hf`. -/
def jsonPrefixClaude : String := "You are a helpful assistant designed to output in JSON format."

/-- The JSON instruction prefix of `complete_text_gemini`. -/
def jsonPrefixGemini : String := "You are a helpful assistant designed to output in JSON format. "

/-- Message normalization of `get_gpt_output` (lines 45-54): when
`json_object` is set, a string prompt that does not mention "json"
(case-insensitively) gets the JSON instruction prefix; a string becomes one
`user` turn; a truthy (non-empty) `history` is prepended. -/
def gptMessages (message : Message) (json_object : Bool) (history : Option (List Turn)) :
    List Turn :=
  let message : Message :=
    match message with
    | .inl s =>
      if json_object && !containsSub "json".data (pyLower s).data then
        .inl (jsonPrefixGpt ++ s)
      else .inl s
    | .inr ts => .inr ts
  let messages :=
    match message with
    | .inl s => [⟨"user", s⟩]
    | .inr ts => ts
  match history with
  | some h => if h.isEmpty then messages else h ++ messages
  | none => messages

/-- Message normalization of `complete_text_claude` (lines 102-110): a string
prompt gets the JSON prefix when `json_object` is set (unconditionally, no
"json"-mention check) and becomes one `user` turn; a non-`None` history is
prepended. -/
def claudeMessages (message : Message) (json_object : Bool)
    (history : Option (List Turn)) : List Turn :=
  let messages :=
    match message with
    | .inl s =>
      [⟨"user", if json_object then jsonPrefixClaude ++ s else s⟩]
    | .inr ts => ts
  match history with
  | some h => h ++ messages
  | none => messages

/-- The per-turn conversion loop of `complete_text_gemini` (lines 172-177 and
181-186): `user` turns pass through, `assistant` turns are renamed to
`model`, content is wrapped in a one-element `parts` list, and any other
role is dropped (no `else` branch in the source). -/
def geminiConvert (ts : List Turn) : List GTurn :=
  ts.filterMap fun t =>
    if t.role = "user" then some ⟨"user", [t.content]⟩
    else if t.role = "assistant" then some ⟨"model", [t.content]⟩
    else none

/-- Message normalization of `complete_text_gemini` (lines 167-187): a string
prompt (JSON-prefixed when `json_object` is set) becomes one `user` turn with
a `parts` list; a turn list goes through `geminiConvert`; a non-`None`
history is converted the same way and prepended. -/
def geminiMessages (message : Message) (json_object : Bool)
    (history : Option (List Turn)) : List GTurn :=
  let messages :=
    match message with
    | .inl s =>
      [⟨"user", [if json_object then jsonPrefixGemini ++ s else s]⟩]
    | .inr ts => geminiConvert ts
  match history with
  | some h => geminiConvert h ++ messages
  | none => messages

/-! ## Exceptions, responses, run results -/

/-- Python exceptions that this layer distinguishes. -/
inductive PyErr where
  | apiError (msg : String)
  | valueError (msg : String)
  | importError (msg : String)
  | nameError (msg : String)
deriving DecidableEq

/-- What a caller ultimately raises. `exc e` is a re-raise of a captured
exception; `unboundLocal` is the `UnboundLocalError` produced by `raise e`
when `e` is no longer bound (Python deletes the `except ... as e` target when
the except clause exits); `raiseNone` is the `TypeError` produced by
`raise None`. -/
inductive Raised where
  | exc (e : PyErr)
  | unboundLocal
  | raiseNone
deriving DecidableEq

/-- The backend-native response object, abstracted to the one field the
callers read (`chat.choices[0].message.content`, `to_dict()["content"][0]
['text']`, `response.text`). -/
structure Resp where
  text : String
deriving DecidableEq

/-- The outcome of one backend invocation attempt, indexed by attempt
number. -/
abbrev Backend := Nat → Except PyErr Resp

/-- A value returned to the caller: normalized text, a parsed JSON value, or
the raw backend-native object. -/
inductive PyValue where
  | vstr (s : String)
  | vjson (j : JsonValue)
  | vraw (r : Resp)

/-- The observable behaviour of one caller invocation: the returned value or
raised exception, how many backend invocations were made, and how many
`time.sleep` calls were performed. -/
structure RunResult where
  outcome : Except Raised PyValue
  calls : Nat
  sleeps : Nat

/-- The state of the Python local `e` (or `error`) that the post-loop
`raise` reads: never assigned / deleted, bound to `None`, or bound to an
exception. -/
inductive EVar where
  | unbound
  | bNone
  | bExc (e : PyErr)
deriving DecidableEq

/-- What `raise` does on each `EVar` state. -/
def EVar.raiseIt : EVar → Raised
  | .unbound => .unboundLocal
  | .bNone => .raiseNone
  | .bExc e => .exc e

/-- Python text slicing `result[result.find("\x7b"):result.rfind("\x7d")+1]`
(line 75 of `get_gpt_output`). -/
def gptExtract (s : String) : String :=
  ⟨pySlice s.data (pyFind s.data '\x7b') (pyRfind s.data '\x7d' + 1)⟩

/-! ## Family A: `get_gpt_output` retry loop (lines 57-81)

The loop variable `error` is an ordinary assignment (`error = e`) inside the
except clause, so it survives the clause; it starts unbound. A backend
failure logs, sleeps and continues; a JSON parse failure logs and continues
without sleeping; after exhaustion, `raise error`. -/

def gptLoopAux (backend : Backend) (json_object : Bool) (errorVar : EVar)
    (cnt : Nat) : Nat → Nat → Nat → RunResult
  | 0, calls, sleeps => ⟨.error errorVar.raiseIt, calls, sleeps⟩
  | remaining + 1, calls, sleeps =>
    match backend cnt with
    | .error e =>
      gptLoopAux backend json_object (.bExc e) (cnt + 1) remaining (calls + 1) (sleeps + 1)
    | .ok resp =>
      if json_object then
        match json_loads (gptExtract resp.text) with
        | some v => ⟨.ok (.vjson v), calls + 1, sleeps⟩
        | none =>
          gptLoopAux backend json_object errorVar (cnt + 1) remaining (calls + 1) sleeps
      else ⟨.ok (.vstr resp.text), calls + 1, sleeps⟩

/-- `get_gpt_output`'s loop, started with `error` unbound. The `return_raw`
parameter is accepted (as in the source signature) and never read. -/
def gptRun (backend : Backend) (json_object : Bool) (max_retry : Nat)
    (return_raw : Bool) : RunResult :=
  gptLoopAux backend json_object .unbound 0 max_retry 0 0

/-! ## Family B: `complete_text_claude` (lines 83-138)

Setup (lines 95-100) resolves the credential and builds the client inside a
try whose except only prints: a setup failure is logged and execution falls
through to the loop, where the unbound client name makes every attempt raise
`NameError`. The loop initializes `e = None` (line 113); each except clause
binds and then deletes `e`, so after any failed attempt `e` is unbound and
the post-loop `raise e` (line 138) reads `EVar.raiseIt`. -/

/-- One attempt of the Claude loop body: with a constructed client the
backend oracle decides; with setup failed the client name is unbound and the
attempt raises `NameError`. -/
def claudeAttempt (clientOk : Bool) (backend : Backend) (cnt : Nat) : Except PyErr Resp :=
  if clientOk then backend cnt
  else .error (.nameError "name anthropic_client is not defined")

def claudeLoopAux (clientOk : Bool) (backend : Backend)
    (json_object return_raw : Bool) (eVar : EVar) (cnt : Nat) :
    Nat → Nat → Nat → RunResult
  | 0, calls, sleeps => ⟨.error eVar.raiseIt, calls, sleeps⟩
  | remaining + 1, calls, sleeps =>
    match claudeAttempt clientOk backend cnt with
    | .error _ =>
      claudeLoopAux clientOk backend json_object return_raw .unbound (cnt + 1)
        remaining (calls + 1) (sleeps + 1)
    | .ok resp =>
      if json_object && !return_raw then
        match json_loads resp.text with
        | some v => ⟨.ok (.vjson v), calls + 1, sleeps⟩
        | none =>
          claudeLoopAux clientOk backend json_object return_raw .unbound (cnt + 1)
            remaining (calls + 1) sleeps
      else if return_raw then ⟨.ok (.vraw resp), calls + 1, sleeps⟩
      else ⟨.ok (.vstr resp.text), calls + 1, sleeps⟩

/-- `complete_text_claude`: setup never raises; the loop starts with
`e = None`. -/
def claudeRun (clientOk : Bool) (backend : Backend) (json_object return_raw : Bool)
    (max_retry : Nat) : RunResult :=
  claudeLoopAux clientOk backend json_object return_raw .bNone 0 max_retry 0 0

/-! ## Family C: `complete_text_gemini` (lines 140-242)

Setup (lines 153-164) raises `ValueError` when the `GEMINI_API_KEY`
environment variable is falsy (absent or empty) and `ImportError` when the
`google.generativeai` import failed; the except clause re-raises (`raise e`,
line 164), so setup failure is immediately fatal, before any attempt. The
retry loop (lines 189-242) has exactly the Claude loop's shape. -/

/-- The setup block of `complete_text_gemini`. `apiKey` is
`os.environ.get("GEMINI_API_KEY")`; `genaiAvailable` says whether the
`google.generativeai` import succeeded. -/
def geminiSetup (apiKey : Option String) (genaiAvailable : Bool) : Except PyErr Unit :=
  if apiKey = none || apiKey = some "" then
    .error (.valueError "GEMINI_API_KEY environment variable not found.")
  else if !genaiAvailable then
    .error (.importError "google-generativeai package not installed. Please install it with: pip install google-generativeai")
  else .ok ()

def geminiLoopAux (backend : Backend) (json_object return_raw : Bool)
    (eVar : EVar) (cnt : Nat) : Nat → Nat → Nat → RunResult
  | 0, calls, sleeps => ⟨.error eVar.raiseIt, calls, sleeps⟩
  | remaining + 1, calls, sleeps =>
    match backend cnt with
    | .error _ =>
      geminiLoopAux backend json_object return_raw .unbound (cnt + 1)
        remaining (calls + 1) (sleeps + 1)
    | .ok resp =>
      if json_object && !return_raw then
        match json_loads resp.text with
        | some v => ⟨.ok (.vjson v), calls + 1, sleeps⟩
        | none =>
          geminiLoopAux backend json_object return_raw .unbound (cnt + 1)
            remaining (calls + 1) sleeps
      else if return_raw then ⟨.ok (.vraw resp), calls + 1, sleeps⟩
      else ⟨.ok (.vstr resp.text), calls + 1, sleeps⟩

/-- `complete_text_gemini`: fatal setup first, then the loop with
`e = None`. -/
def geminiRun (apiKey : Option String) (genaiAvailable : Bool) (backend : Backend)
    (json_object return_raw : Bool) (max_retry : Nat) : RunResult :=
  match geminiSetup apiKey genaiAvailable with
  | .error e => ⟨.error (.exc e), 0, 0⟩
  | .ok _ => geminiLoopAux backend json_object return_raw .bNone 0 max_retry 0 0

/-! ## Family D: `complete_text_hf` (lines 244-289)

The generation loop (lines 270-289): a successful attempt returns the
decoded completion from inside the try; a failure logs, sleeps and loops.
`e` is never assigned outside except clauses, so the post-loop `raise e`
(line 289) always reads an unbound name. -/

def hfLoopAux (backend : Backend) (cnt : Nat) : Nat → Nat → Nat → RunResult
  | 0, calls, sleeps => ⟨.error EVar.unbound.raiseIt, calls, sleeps⟩
  | remaining + 1, calls, sleeps =>
    match backend cnt with
    | .ok resp => ⟨.ok (.vstr resp.text), calls + 1, sleeps⟩
    | .error _ => hfLoopAux backend (cnt + 1) remaining (calls + 1) (sleeps + 1)

/-- The retry loop of `complete_text_hf`. -/
def hfRun (backend : Backend) (max_retry : Nat) : RunResult :=
  hfLoopAux backend 0 max_retry 0 0

/-! ## The local model cache (lines 244, 257-264) -/

/-- Python `model.split("/", 1)[1]`: the checkpoint name after the namespace
prefix; `none` models the `IndexError` when no slash is present. -/
def hfCheckpointKeyAux : List Char → Option (List Char)
  | [] => none
  | c :: cs => if c = '/' then some cs else hfCheckpointKeyAux cs

/-- Checkpoint key of a model identifier. -/
def hfCheckpointKey (model : String) : Option String :=
  (hfCheckpointKeyAux model.data).map fun cs => ⟨cs⟩

/-- The process-wide `loaded_hf_models` dictionary, as an association list
keyed by checkpoint name; the values are abstract (model, tokenizer)
pairs. -/
abbrev HFCache (α : Type) := List (String × α)

/-- The cache consultation of `complete_text_hf` (lines 259-264): on a hit
return the cached pair and leave the cache unchanged; on a miss run the
loader, insert, and report that a load happened. Returns
(pair, new cache, load performed). -/
def hfGetModel {α : Type} (cache : HFCache α) (loader : String → α) (key : String) :
    α × HFCache α × Bool :=
  match cache.lookup key with
  | some p => (p, cache, false)
  | none =>
    let p := loader key
    (p, (key, p) :: cache, true)

/-! ## The dispatcher: `get_llm_output_tools` (lines 291-326) -/

/-- The four backend families. -/
inductive Family where
  | openaiF
  | anthropicF
  | geminiF
  | hfF
deriving DecidableEq

def MAX_OPENAI_RETRY : Nat := 5
def OPENAI_SLEEP_TIME : Nat := 60
def MAX_CLAUDE_RETRY : Nat := 100
def CLAUDE_SLEEP_TIME : Nat := 5
def MAX_GEMINI_RETRY : Nat := 5
def GEMINI_SLEEP_TIME : Nat := 30

/-- The routing decision of `get_llm_output_tools` (lines 314-326): substring
matches in source order; the matched family together with the dispatcher-
injected (max_retry, sleep_time) kwargs (`none` for the HF family, which
keeps its callee defaults); an unmatched model raises `ValueError`. -/
def dispatch (model : String) : Except String (Family × Option (Nat × Nat)) :=
  if containsSub "gpt-4".data model.data then
    .ok (.openaiF, some (MAX_OPENAI_RETRY, OPENAI_SLEEP_TIME))
  else if containsSub "claude".data model.data then
    .ok (.anthropicF, some (MAX_CLAUDE_RETRY, CLAUDE_SLEEP_TIME))
  else if containsSub "gemma".data model.data || containsSub "gemini".data model.data then
    .ok (.geminiF, some (MAX_GEMINI_RETRY, GEMINI_SLEEP_TIME))
  else if containsSub "huggingface".data model.data then
    .ok (.hfF, none)
  else
    .error ("Model " ++ model ++ " not recognized.")

/-- Did the call return (as opposed to raise)? -/
def outcomeOk : Except Raised PyValue → Bool
  | .ok _ => true
  | .error _ => false

/-- Did the call return the raw backend-native object? -/
def isRawOutcome : Except Raised PyValue → Bool
  | .ok (.vraw _) => true
  | _ => false

/-! ## Helper lemmas -/

/-- A character absent from a list is never found. -/
lemma pyFindAux_eq_none {c : Char} {s : List Char} (h : ∀ x ∈ s, x ≠ c) :
    pyFindAux c s = none := by
  induction s with
  | nil => rfl
  | cons x xs ih =>
    have hx : x ≠ c := h x (List.mem_cons_self x xs)
    simp only [pyFindAux, if_neg hx]
    rw [ih fun y hy => h y (List.mem_cons_of_mem x hy)]
    rfl

/-- When the text has no opening and no closing brace, the family A slice
`result[result.find("\x7b"):result.rfind("\x7d")+1]` is empty. -/
lemma gptExtract_eq_empty {t : String}
    (h : ∀ c ∈ t.data, c ≠ '\x7b' ∧ c ≠ '\x7d') : gptExtract t = "" := by
  have hf : pyFind t.data '\x7b' = -1 := by
    unfold pyFind
    rw [pyFindAux_eq_none fun x hx => (h x hx).1]
  have hr : pyRfind t.data '\x7d' = -1 := by
    unfold pyRfind
    rw [pyFindAux_eq_none fun x hx => (h x (List.mem_reverse.mp hx)).2]
  unfold gptExtract
  rw [hf, hr]
  have : pySlice t.data (-1) (-1 + 1) = [] := by
    unfold pySlice pySliceNorm
    norm_num
  rw [this]

/-- The empty document does not parse. -/
lemma json_loads_empty : json_loads "" = none := rfl

/-! ## Claim theorems -/

/-- C3: the dispatcher `get_llm_output_tools` routes by substring match on
the model identifier in fixed priority order — a model containing "gpt-4"
goes to the OpenAI-style caller with the OpenAI retry policy, else one
containing "claude" to the Anthropic-style caller, else one containing
"gemma" or "gemini" to the multimodal caller, else one containing
"huggingface" to the local caller — and any other model identifier raises
the fatal "not recognized" `ValueError` without routing to any backend
caller; concrete instances for "gemini-1.5-flash",
"claude-3-opus-20240229" and "totally-unknown-model". -/
theorem C3_dispatch_priority (m : String) :
    (containsSub "gpt-4".data m.data = true →
      dispatch m = .ok (.openaiF, some (MAX_OPENAI_RETRY, OPENAI_SLEEP_TIME))) ∧
    (containsSub "gpt-4".data m.data = false →
      containsSub "claude".data m.data = true →
      dispatch m = .ok (.anthropicF, some (MAX_CLAUDE_RETRY, CLAUDE_SLEEP_TIME))) ∧
    (containsSub "gpt-4".data m.data = false →
      containsSub "claude".data m.data = false →
      (containsSub "gemma".data m.data || containsSub "gemini".data m.data) = true →
      dispatch m = .ok (.geminiF, some (MAX_GEMINI_RETRY, GEMINI_SLEEP_TIME))) ∧
    (containsSub "gpt-4".data m.data = false →
      containsSub "claude".data m.data = false →
      containsSub "gemma".data m.data = false →
      containsSub "gemini".data m.data = false →
      containsSub "huggingface".data m.data = true →
      dispatch m = .ok (.hfF, none)) ∧
    (containsSub "gpt-4".data m.data = false →
      containsSub "claude".data m.data = false →
      containsSub "gemma".data m.data = false →
      containsSub "gemini".data m.data = false →
      containsSub "huggingface".data m.data = false →
      dispatch m = .error ("Model " ++ m ++ " not recognized.")) ∧
    dispatch "gemini-1.5-flash" = .ok (.geminiF, some (MAX_GEMINI_RETRY, GEMINI_SLEEP_TIME)) ∧
    dispatch "claude-3-opus-20240229" = .ok (.anthropicF, some (MAX_CLAUDE_RETRY, CLAUDE_SLEEP_TIME)) ∧
    dispatch "totally-unknown-model" = .error "Model totally-unknown-model not recognized." := by
  refine ⟨fun h1 => ?_, fun h1 h2 => ?_, fun h1 h2 h3 => ?_,
    fun h1 h2 h3 h4 h5 => ?_, fun h1 h2 h3 h4 h5 => ?_, rfl, rfl, rfl⟩
  · simp [dispatch, h1]
  · simp [dispatch, h1, h2]
  · simp [dispatch, h1, h2]
    rcases Bool.or_eq_true_iff.mp h3 with h | h <;> simp [h]
  · simp [dispatch, h1, h2, h3, h4, h5]
  · simp [dispatch, h1, h2, h3, h4, h5]

/-- Witness for C3 at concrete inputs: "gpt-4-turbo" routes to the OpenAI
caller with its policy, and "totally-unknown-model" is fatal. -/
theorem C3_dispatch_priority_witness :
    dispatch "gpt-4-turbo" = .ok (.openaiF, some (MAX_OPENAI_RETRY, OPENAI_SLEEP_TIME)) ∧
    dispatch "huggingface/codellama/CodeLlama-7b-hf" = .ok (.hfF, none) :=
  ⟨(C3_dispatch_priority "gpt-4-turbo").1 (by decide),
   (C3_dispatch_priority "huggingface/codellama/CodeLlama-7b-hf").2.2.2.1
     (by decide) (by decide) (by decide) (by decide) (by decide)⟩

/-- C4: with history present, the effective turn sequence is history
followed by the message turns, order preserved; the commercial backends pass
roles through unchanged, and the multimodal backend renames `assistant` to
`model` in both history and message (history [user:A, assistant:B] plus
message "C" gives [user:A, assistant:B, user:C] commercially and
[user:A, model:B, user:C] for Gemini). -/
theorem C4_history_prepended (h msgs : List Turn) (jo : Bool) (A B C : String) :
    gptMessages (.inr msgs) jo (some h) = h ++ msgs ∧
    claudeMessages (.inr msgs) jo (some h) = h ++ msgs ∧
    geminiMessages (.inr msgs) jo (some h) = geminiConvert h ++ geminiConvert msgs ∧
    gptMessages (.inl C) false (some [⟨"user", A⟩, ⟨"assistant", B⟩]) =
      [⟨"user", A⟩, ⟨"assistant", B⟩, ⟨"user", C⟩] ∧
    claudeMessages (.inl C) false (some [⟨"user", A⟩, ⟨"assistant", B⟩]) =
      [⟨"user", A⟩, ⟨"assistant", B⟩, ⟨"user", C⟩] ∧
    geminiMessages (.inl C) false (some [⟨"user", A⟩, ⟨"assistant", B⟩]) =
      [⟨"user", [A]⟩, ⟨"model", [B]⟩, ⟨"user", [C]⟩] := by
  refine ⟨?_, rfl, rfl, ?_, rfl, ?_⟩
  · cases h with
    | nil => simp [gptMessages]
    | cons t ts => simp [gptMessages]
  · simp [gptMessages]
  · simp [geminiMessages, geminiConvert]

/-- C6: a single string message with no history becomes, in each
conversation-building backend caller, exactly one turn with role "user"
whose content is the input string (Gemini wrapping the content as a
one-element `parts` list). -/
theorem C6_single_user_turn (s : String) :
    gptMessages (.inl s) false none = [⟨"user", s⟩] ∧
    claudeMessages (.inl s) false none = [⟨"user", s⟩] ∧
    geminiMessages (.inl s) false none = [⟨"user", [s]⟩] := by
  refine ⟨?_, rfl, rfl⟩
  simp [gptMessages]

/-- C1 counterexample: on the spec's own example response
"Sure! \x7b"a": 1\x7d Thanks" with `json_object` set, family A returns the
embedded object, but the Claude-style and multimodal callers apply
`json.loads` to the whole text with no extraction: the parse fails, the
attempt is consumed, and with the one configured attempt exhausted they
raise instead of returning the object — so families B and C do not perform
family A's extraction. -/
theorem C1_no_extraction_in_B_C :
    gptRun (fun _ => .ok ⟨"Sure! \x7b\"a\": 1\x7d Thanks"⟩) true 1 false =
      ⟨.ok (.vjson (.jobj [("a".data, .jnum 1)])), 1, 0⟩ ∧
    claudeRun true (fun _ => .ok ⟨"Sure! \x7b\"a\": 1\x7d Thanks"⟩) true false 1 =
      ⟨.error .unboundLocal, 1, 0⟩ ∧
    geminiRun (some "key") true (fun _ => .ok ⟨"Sure! \x7b\"a\": 1\x7d Thanks"⟩) true false 1 =
      ⟨.error .unboundLocal, 1, 0⟩ ∧
    (Except.error Raised.unboundLocal : Except Raised PyValue) ≠
      .ok (.vjson (.jobj [("a".data, .jnum 1)])) :=
  ⟨rfl, rfl, rfl, by simp⟩

/-- C1 (amended): with `json_object` set and `return_raw` unset, family A
parses the substring of the response text from the first '\x7b' to the last
'\x7d', while families B and C parse the entire response text unmodified; a
parse failure consumes the attempt in every family. On the example response
the extraction yields the embedded object in family A. -/
theorem C1_json_normalization (t : String) :
    gptRun (fun _ => .ok ⟨t⟩) true 1 false =
      (match json_loads (gptExtract t) with
       | some v => ⟨.ok (.vjson v), 1, 0⟩
       | none => ⟨.error .unboundLocal, 1, 0⟩) ∧
    claudeRun true (fun _ => .ok ⟨t⟩) true false 1 =
      (match json_loads t with
       | some v => ⟨.ok (.vjson v), 1, 0⟩
       | none => ⟨.error .unboundLocal, 1, 0⟩) ∧
    geminiRun (some "key") true (fun _ => .ok ⟨t⟩) true false 1 =
      (match json_loads t with
       | some v => ⟨.ok (.vjson v), 1, 0⟩
       | none => ⟨.error .unboundLocal, 1, 0⟩) ∧
    gptRun (fun _ => .ok ⟨"Sure! \x7b\"a\": 1\x7d Thanks"⟩) true 1 false =
      ⟨.ok (.vjson (.jobj [("a".data, .jnum 1)])), 1, 0⟩ := by
  refine ⟨?_, ?_, ?_, rfl⟩
  · cases hj : json_loads (gptExtract t) <;>
      simp [gptRun, gptLoopAux, hj, EVar.raiseIt]
  · cases hj : json_loads t <;>
      simp [claudeRun, claudeLoopAux, claudeAttempt, hj, EVar.raiseIt]
  · cases hj : json_loads t <;>
      simp [geminiRun, geminiSetup, geminiLoopAux, hj, EVar.raiseIt]

/-- C7: with `json_object` set and a response text containing no '\x7b' and
no '\x7d', the family A extraction slice is empty, the JSON parse of it
fails, the failure consumes one retry attempt and the loop proceeds to the
next attempt; with the bound exhausted nothing is returned — the malformed
text is never the result. -/
theorem C7_no_brace_retry (t : String)
    (hnb : ∀ c ∈ t.data, c ≠ '\x7b' ∧ c ≠ '\x7d')
    (b : Backend) (hb : b 0 = .ok ⟨t⟩) (r : Nat) :
    gptExtract t = "" ∧
    json_loads (gptExtract t) = none ∧
    gptRun b true (r + 1) false = gptLoopAux b true .unbound 1 r 1 0 ∧
    gptRun b true 1 false = ⟨.error .unboundLocal, 1, 0⟩ := by
  have he : gptExtract t = "" := gptExtract_eq_empty hnb
  have hn : json_loads (gptExtract t) = none := by
    rw [he]
    exact json_loads_empty
  refine ⟨he, hn, ?_, ?_⟩
  · simp [gptRun, gptLoopAux, hb, hn]
  · simp [gptRun, gptLoopAux, hb, hn, EVar.raiseIt]

/-- Witness for C7: the brace-free response "plain text" consumes the single
attempt and the call raises. -/
theorem C7_no_brace_retry_witness :
    gptExtract "plain text" = "" ∧
    json_loads (gptExtract "plain text") = none ∧
    gptRun (fun _ => .ok ⟨"plain text"⟩) true (0 + 1) false =
      gptLoopAux (fun _ => .ok ⟨"plain text"⟩) true .unbound 1 0 1 0 ∧
    gptRun (fun _ => .ok ⟨"plain text"⟩) true 1 false =
      ⟨.error .unboundLocal, 1, 0⟩ :=
  C7_no_brace_retry "plain text" (by decide) (fun _ => .ok ⟨"plain text"⟩) rfl 0

/-- With the client name unbound after a failed setup, every Claude attempt
raises `NameError`; the loop runs all its attempts, sleeping after each, and
the post-loop `raise e` reads an unbound name. -/
lemma claudeLoop_clientFail (b : Backend) (jo rr : Bool) :
    ∀ (r cnt calls sleeps : Nat) (ev : EVar),
      claudeLoopAux false b jo rr ev cnt (r + 1) calls sleeps =
        ⟨.error .unboundLocal, calls + (r + 1), sleeps + (r + 1)⟩ := by
  intro r
  induction r with
  | zero =>
    intro cnt calls sleeps ev
    simp [claudeLoopAux, claudeAttempt, EVar.raiseIt]
  | succ n ih =>
    intro cnt calls sleeps ev
    show claudeLoopAux false b jo rr ev cnt (n + 1 + 1) calls sleeps = _
    rw [show claudeLoopAux false b jo rr ev cnt (n + 1 + 1) calls sleeps =
        claudeLoopAux false b jo rr .unbound (cnt + 1) (n + 1) (calls + 1) (sleeps + 1) by
      simp [claudeLoopAux, claudeAttempt]]
    rw [ih (cnt + 1) (calls + 1) (sleeps + 1) .unbound]
    simp only [RunResult.mk.injEq, true_and]
    omega

/-- First success of the family A loop: after `k` failed attempts (one sleep
each), a successful attempt whose normalization succeeds returns at once:
`k + 1` backend calls, `k` sleeps, no sleep after the success. -/
lemma gptLoop_success (b : Backend) (jo : Bool) (resp : Resp)
    (hjo : jo = true → (json_loads (gptExtract resp.text)).isSome = true) :
    ∀ (k cnt r calls sleeps : Nat) (ev : EVar),
      (∀ i, i < k → ∃ e, b (cnt + i) = .error e) →
      b (cnt + k) = .ok resp →
      k < r →
      outcomeOk (gptLoopAux b jo ev cnt r calls sleeps).outcome = true ∧
      (gptLoopAux b jo ev cnt r calls sleeps).calls = calls + (k + 1) ∧
      (gptLoopAux b jo ev cnt r calls sleeps).sleeps = sleeps + k := by
  intro k
  induction k with
  | zero =>
    intro cnt r calls sleeps ev _ hsucc hk
    obtain ⟨r', rfl⟩ : ∃ r', r = r' + 1 := ⟨r - 1, by omega⟩
    rw [Nat.add_zero] at hsucc
    cases jo with
    | false => simp [gptLoopAux, hsucc, outcomeOk]
    | true =>
      obtain ⟨v, hv⟩ := Option.isSome_iff_exists.mp (hjo rfl)
      simp [gptLoopAux, hsucc, hv, outcomeOk]
  | succ k ih =>
    intro cnt r calls sleeps ev hfail hsucc hk
    obtain ⟨r', rfl⟩ : ∃ r', r = r' + 1 := ⟨r - 1, by omega⟩
    obtain ⟨e, he⟩ := hfail 0 (Nat.succ_pos k)
    rw [Nat.add_zero] at he
    rw [show gptLoopAux b jo ev cnt (r' + 1) calls sleeps =
        gptLoopAux b jo (.bExc e) (cnt + 1) r' (calls + 1) (sleeps + 1) by
      simp [gptLoopAux, he]]
    have h1 : ∀ i, i < k → ∃ e, b (cnt + 1 + i) = .error e := by
      intro i hi
      have := hfail (i + 1) (by omega)
      rwa [show cnt + (i + 1) = cnt + 1 + i by omega] at this
    have h2 : b (cnt + 1 + k) = .ok resp := by
      rw [show cnt + 1 + k = cnt + (k + 1) by omega]
      exact hsucc
    obtain ⟨o1, o2, o3⟩ := ih (cnt + 1) r' (calls + 1) (sleeps + 1) (.bExc e) h1 h2 (by omega)
    exact ⟨o1, by omega, by omega⟩

/-- First success of the family B loop with a constructed client. -/
lemma claudeLoop_success (b : Backend) (jo rr : Bool) (resp : Resp)
    (hjo : jo = true → rr = false → (json_loads resp.text).isSome = true) :
    ∀ (k cnt r calls sleeps : Nat) (ev : EVar),
      (∀ i, i < k → ∃ e, b (cnt + i) = .error e) →
      b (cnt + k) = .ok resp →
      k < r →
      outcomeOk (claudeLoopAux true b jo rr ev cnt r calls sleeps).outcome = true ∧
      (claudeLoopAux true b jo rr ev cnt r calls sleeps).calls = calls + (k + 1) ∧
      (claudeLoopAux true b jo rr ev cnt r calls sleeps).sleeps = sleeps + k := by
  intro k
  induction k with
  | zero =>
    intro cnt r calls sleeps ev _ hsucc hk
    obtain ⟨r', rfl⟩ : ∃ r', r = r' + 1 := ⟨r - 1, by omega⟩
    rw [Nat.add_zero] at hsucc
    cases jo with
    | false =>
      cases rr <;> simp [claudeLoopAux, claudeAttempt, hsucc, outcomeOk]
    | true =>
      cases rr with
      | false =>
        obtain ⟨v, hv⟩ := Option.isSome_iff_exists.mp (hjo rfl rfl)
        simp [claudeLoopAux, claudeAttempt, hsucc, hv, outcomeOk]
      | true => simp [claudeLoopAux, claudeAttempt, hsucc, outcomeOk]
  | succ k ih =>
    intro cnt r calls sleeps ev hfail hsucc hk
    obtain ⟨r', rfl⟩ : ∃ r', r = r' + 1 := ⟨r - 1, by omega⟩
    obtain ⟨e, he⟩ := hfail 0 (Nat.succ_pos k)
    rw [Nat.add_zero] at he
    rw [show claudeLoopAux true b jo rr ev cnt (r' + 1) calls sleeps =
        claudeLoopAux true b jo rr .unbound (cnt + 1) r' (calls + 1) (sleeps + 1) by
      simp [claudeLoopAux, claudeAttempt, he]]
    have h1 : ∀ i, i < k → ∃ e, b (cnt + 1 + i) = .error e := by
      intro i hi
      have := hfail (i + 1) (by omega)
      rwa [show cnt + (i + 1) = cnt + 1 + i by omega] at this
    have h2 : b (cnt + 1 + k) = .ok resp := by
      rw [show cnt + 1 + k = cnt + (k + 1) by omega]
      exact hsucc
    obtain ⟨o1, o2, o3⟩ :=
      ih (cnt + 1) r' (calls + 1) (sleeps + 1) .unbound h1 h2 (by omega)
    exact ⟨o1, by omega, by omega⟩

/-- First success of the family C loop (after a successful setup). -/
lemma geminiLoop_success (b : Backend) (jo rr : Bool) (resp : Resp)
    (hjo : jo = true → rr = false → (json_loads resp.text).isSome = true) :
    ∀ (k cnt r calls sleeps : Nat) (ev : EVar),
      (∀ i, i < k → ∃ e, b (cnt + i) = .error e) →
      b (cnt + k) = .ok resp →
      k < r →
      outcomeOk (geminiLoopAux b jo rr ev cnt r calls sleeps).outcome = true ∧
      (geminiLoopAux b jo rr ev cnt r calls sleeps).calls = calls + (k + 1) ∧
      (geminiLoopAux b jo rr ev cnt r calls sleeps).sleeps = sleeps + k := by
  intro k
  induction k with
  | zero =>
    intro cnt r calls sleeps ev _ hsucc hk
    obtain ⟨r', rfl⟩ : ∃ r', r = r' + 1 := ⟨r - 1, by omega⟩
    rw [Nat.add_zero] at hsucc
    cases jo with
    | false => cases rr <;> simp [geminiLoopAux, hsucc, outcomeOk]
    | true =>
      cases rr with
      | false =>
        obtain ⟨v, hv⟩ := Option.isSome_iff_exists.mp (hjo rfl rfl)
        simp [geminiLoopAux, hsucc, hv, outcomeOk]
      | true => simp [geminiLoopAux, hsucc, outcomeOk]
  | succ k ih =>
    intro cnt r calls sleeps ev hfail hsucc hk
    obtain ⟨r', rfl⟩ : ∃ r', r = r' + 1 := ⟨r - 1, by omega⟩
    obtain ⟨e, he⟩ := hfail 0 (Nat.succ_pos k)
    rw [Nat.add_zero] at he
    rw [show geminiLoopAux b jo rr ev cnt (r' + 1) calls sleeps =
        geminiLoopAux b jo rr .unbound (cnt + 1) r' (calls + 1) (sleeps + 1) by
      simp [geminiLoopAux, he]]
    have h1 : ∀ i, i < k → ∃ e, b (cnt + 1 + i) = .error e := by
      intro i hi
      have := hfail (i + 1) (by omega)
      rwa [show cnt + (i + 1) = cnt + 1 + i by omega] at this
    have h2 : b (cnt + 1 + k) = .ok resp := by
      rw [show cnt + 1 + k = cnt + (k + 1) by omega]
      exact hsucc
    obtain ⟨o1, o2, o3⟩ :=
      ih (cnt + 1) r' (calls + 1) (sleeps + 1) .unbound h1 h2 (by omega)
    exact ⟨o1, by omega, by omega⟩

/-- First success of the family D loop. -/
lemma hfLoop_success (b : Backend) (resp : Resp) :
    ∀ (k cnt r calls sleeps : Nat),
      (∀ i, i < k → ∃ e, b (cnt + i) = .error e) →
      b (cnt + k) = .ok resp →
      k < r →
      hfLoopAux b cnt r calls sleeps =
        ⟨.ok (.vstr resp.text), calls + (k + 1), sleeps + k⟩ := by
  intro k
  induction k with
  | zero =>
    intro cnt r calls sleeps _ hsucc hk
    obtain ⟨r', rfl⟩ : ∃ r', r = r' + 1 := ⟨r - 1, by omega⟩
    rw [Nat.add_zero] at hsucc
    simp [hfLoopAux, hsucc]
  | succ k ih =>
    intro cnt r calls sleeps hfail hsucc hk
    obtain ⟨r', rfl⟩ : ∃ r', r = r' + 1 := ⟨r - 1, by omega⟩
    obtain ⟨e, he⟩ := hfail 0 (Nat.succ_pos k)
    rw [Nat.add_zero] at he
    rw [show hfLoopAux b cnt (r' + 1) calls sleeps =
        hfLoopAux b (cnt + 1) r' (calls + 1) (sleeps + 1) by
      simp [hfLoopAux, he]]
    have h1 : ∀ i, i < k → ∃ e, b (cnt + 1 + i) = .error e := by
      intro i hi
      have := hfail (i + 1) (by omega)
      rwa [show cnt + (i + 1) = cnt + 1 + i by omega] at this
    have h2 : b (cnt + 1 + k) = .ok resp := by
      rw [show cnt + 1 + k = cnt + (k + 1) by omega]
      exact hsucc
    rw [ih (cnt + 1) r' (calls + 1) (sleeps + 1) h1 h2 (by omega)]
    simp only [RunResult.mk.injEq, true_and]
    omega

/-- The family A loop never produces a raw backend-native object. -/
lemma gptLoop_notRaw (b : Backend) (jo : Bool) :
    ∀ (r cnt calls sleeps : Nat) (ev : EVar),
      isRawOutcome (gptLoopAux b jo ev cnt r calls sleeps).outcome = false := by
  intro r
  induction r with
  | zero =>
    intro cnt calls sleeps ev
    simp [gptLoopAux, isRawOutcome]
  | succ n ih =>
    intro cnt calls sleeps ev
    rcases hb : b cnt with e | resp
    · simp [gptLoopAux, hb, ih]
    · cases jo with
      | false => simp [gptLoopAux, hb, isRawOutcome]
      | true =>
        rcases hj : json_loads (gptExtract resp.text) with _ | v
        · simp [gptLoopAux, hb, hj, ih]
        · simp [gptLoopAux, hb, hj, isRawOutcome]

/-- C2: when every attempt raises, after the last attempt `get_gpt_output`
re-raises the last captured exception through its `error` variable, but
`complete_text_claude`, `complete_text_gemini` and `complete_text_hf`
execute `raise e` after Python has deleted the `except ... as e` binding,
so they raise `UnboundLocalError` instead of the captured exception. -/
theorem C2_exhaustion_raise :
    gptRun (fun _ => .error (.apiError "boom")) false 2 false =
      ⟨.error (.exc (.apiError "boom")), 2, 2⟩ ∧
    claudeRun true (fun _ => .error (.apiError "boom")) false false 2 =
      ⟨.error .unboundLocal, 2, 2⟩ ∧
    geminiRun (some "key") true (fun _ => .error (.apiError "boom")) false false 2 =
      ⟨.error .unboundLocal, 2, 2⟩ ∧
    hfRun (fun _ => .error (.apiError "boom")) 2 = ⟨.error .unboundLocal, 2, 2⟩ ∧
    Raised.unboundLocal ≠ Raised.exc (.apiError "boom") :=
  ⟨rfl, rfl, rfl, rfl, by simp⟩

/-- C5: setup failure is immediately fatal only for the multimodal backend:
`complete_text_gemini` raises before any attempt (zero backend calls) when
the `GEMINI_API_KEY` variable is absent or empty or the generative-AI client
library is not importable, while a Claude-style credential/client failure is
only logged and the call proceeds to the retry loop, performing all its
attempts before failing. -/
theorem C5_setup_fatality (avail : Bool) (b : Backend) (jo rr : Bool) (mr : Nat)
    (key : String) (hkey : key ≠ "") :
    geminiRun none avail b jo rr mr =
      ⟨.error (.exc (.valueError "GEMINI_API_KEY environment variable not found.")), 0, 0⟩ ∧
    geminiRun (some "") avail b jo rr mr =
      ⟨.error (.exc (.valueError "GEMINI_API_KEY environment variable not found.")), 0, 0⟩ ∧
    geminiRun (some key) false b jo rr mr =
      ⟨.error (.exc (.importError "google-generativeai package not installed. Please install it with: pip install google-generativeai")), 0, 0⟩ ∧
    claudeRun false b jo rr (mr + 1) = ⟨.error .unboundLocal, mr + 1, mr + 1⟩ := by
  refine ⟨rfl, rfl, ?_, ?_⟩
  · simp [geminiRun, geminiSetup, hkey]
  · have h := claudeLoop_clientFail b jo rr mr 0 0 0 .bNone
    simpa [claudeRun] using h

/-- Witness for C5 at a concrete input: absent key is fatal with zero
attempts; a failed Claude setup still runs its one attempt. -/
theorem C5_setup_fatality_witness :
    geminiRun none true (fun _ => .ok ⟨"t"⟩) false false 5 =
      ⟨.error (.exc (.valueError "GEMINI_API_KEY environment variable not found.")), 0, 0⟩ ∧
    claudeRun false (fun _ => .ok ⟨"t"⟩) false false (0 + 1) =
      ⟨.error .unboundLocal, 0 + 1, 0 + 1⟩ :=
  ⟨(C5_setup_fatality true (fun _ => .ok ⟨"t"⟩) false false 5 "key" (by decide)).1,
   (C5_setup_fatality true (fun _ => .ok ⟨"t"⟩) false false 0 "key" (by decide)).2.2.2⟩

/-- C8: in every backend caller, when attempts `0..k-1` fail and attempt `k`
succeeds (and its response normalizes) with `k` below the configured bound,
the caller returns with exactly `k + 1` backend calls and `k` sleeps: no
sleep after the successful attempt and no further attempts. -/
theorem C8_early_return (b : Backend) (jo rr : Bool) (resp : Resp) (k mr : Nat)
    (key : String) (hkey : key ≠ "")
    (hfail : ∀ i, i < k → ∃ e, b i = .error e)
    (hsucc : b k = .ok resp)
    (hk : k < mr)
    (hjoA : jo = true → (json_loads (gptExtract resp.text)).isSome = true)
    (hjoBC : jo = true → rr = false → (json_loads resp.text).isSome = true) :
    (outcomeOk (gptRun b jo mr rr).outcome = true ∧
      (gptRun b jo mr rr).calls = k + 1 ∧ (gptRun b jo mr rr).sleeps = k) ∧
    (outcomeOk (claudeRun true b jo rr mr).outcome = true ∧
      (claudeRun true b jo rr mr).calls = k + 1 ∧
      (claudeRun true b jo rr mr).sleeps = k) ∧
    (outcomeOk (geminiRun (some key) true b jo rr mr).outcome = true ∧
      (geminiRun (some key) true b jo rr mr).calls = k + 1 ∧
      (geminiRun (some key) true b jo rr mr).sleeps = k) ∧
    (outcomeOk (hfRun b mr).outcome = true ∧
      (hfRun b mr).calls = k + 1 ∧ (hfRun b mr).sleeps = k) := by
  have hfail0 : ∀ i, i < k → ∃ e, b (0 + i) = .error e := by
    intro i hi
    rw [Nat.zero_add]
    exact hfail i hi
  have hsucc0 : b (0 + k) = .ok resp := by
    rw [Nat.zero_add]
    exact hsucc
  have hgemini : geminiRun (some key) true b jo rr mr =
      geminiLoopAux b jo rr .bNone 0 mr 0 0 := by
    simp [geminiRun, geminiSetup, hkey]
  refine ⟨?_, ?_, ?_, ?_⟩
  · obtain ⟨o1, o2, o3⟩ := gptLoop_success b jo resp hjoA k 0 mr 0 0 .unbound hfail0 hsucc0 hk
    exact ⟨o1, by simpa [gptRun] using o2, by simpa [gptRun] using o3⟩
  · obtain ⟨o1, o2, o3⟩ :=
      claudeLoop_success b jo rr resp hjoBC k 0 mr 0 0 .bNone hfail0 hsucc0 hk
    exact ⟨o1, by simpa [claudeRun] using o2, by simpa [claudeRun] using o3⟩
  · obtain ⟨o1, o2, o3⟩ :=
      geminiLoop_success b jo rr resp hjoBC k 0 mr 0 0 .bNone hfail0 hsucc0 hk
    rw [hgemini]
    exact ⟨o1, by simpa using o2, by simpa using o3⟩
  · have h := hfLoop_success b resp k 0 mr 0 0 hfail0 hsucc0 hk
    rw [hfRun, h]
    simp [outcomeOk]

/-- Witness for C8: with one failing attempt followed by a success and a
bound of 3, every caller returns after 2 calls and 1 sleep. -/
theorem C8_early_return_witness :
    (outcomeOk (gptRun (fun i => if i = 0 then .error (.apiError "x") else .ok ⟨"ok"⟩)
        false 3 false).outcome = true ∧
      (gptRun (fun i => if i = 0 then .error (.apiError "x") else .ok ⟨"ok"⟩)
        false 3 false).calls = 1 + 1 ∧
      (gptRun (fun i => if i = 0 then .error (.apiError "x") else .ok ⟨"ok"⟩)
        false 3 false).sleeps = 1) ∧
    (outcomeOk (claudeRun true (fun i => if i = 0 then .error (.apiError "x") else .ok ⟨"ok"⟩)
        false false 3).outcome = true ∧
      (claudeRun true (fun i => if i = 0 then .error (.apiError "x") else .ok ⟨"ok"⟩)
        false false 3).calls = 1 + 1 ∧
      (claudeRun true (fun i => if i = 0 then .error (.apiError "x") else .ok ⟨"ok"⟩)
        false false 3).sleeps = 1) ∧
    (outcomeOk (geminiRun (some "key") true
        (fun i => if i = 0 then .error (.apiError "x") else .ok ⟨"ok"⟩)
        false false 3).outcome = true ∧
      (geminiRun (some "key") true
        (fun i => if i = 0 then .error (.apiError "x") else .ok ⟨"ok"⟩)
        false false 3).calls = 1 + 1 ∧
      (geminiRun (some "key") true
        (fun i => if i = 0 then .error (.apiError "x") else .ok ⟨"ok"⟩)
        false false 3).sleeps = 1) ∧
    (outcomeOk (hfRun (fun i => if i = 0 then .error (.apiError "x") else .ok ⟨"ok"⟩)
        3).outcome = true ∧
      (hfRun (fun i => if i = 0 then .error (.apiError "x") else .ok ⟨"ok"⟩)
        3).calls = 1 + 1 ∧
      (hfRun (fun i => if i = 0 then .error (.apiError "x") else .ok ⟨"ok"⟩)
        3).sleeps = 1) :=
  C8_early_return (fun i => if i = 0 then .error (.apiError "x") else .ok ⟨"ok"⟩)
    false false ⟨"ok"⟩ 1 3 "key" (by decide)
    (by intro i hi; interval_cases i <;> exact ⟨.apiError "x", rfl⟩)
    rfl (by decide) (by intro h; cases h) (by intro h; cases h)

/-- C9: the local-model cache is keyed by the checkpoint name (the model
identifier with its namespace prefix stripped); the first request for an
uncached checkpoint performs the load and inserts the pair, a second request
for the same checkpoint is served from the cache without loading, and the
cache consultation never evicts an entry. -/
theorem C9_cache_single_load {α : Type} (cache : HFCache α) (loader : String → α)
    (model key : String) (hkey : hfCheckpointKey model = some key)
    (hmiss : cache.lookup key = none) :
    (hfGetModel cache loader key).2.2 = true ∧
    hfGetModel (hfGetModel cache loader key).2.1 loader key =
      ((hfGetModel cache loader key).1, (hfGetModel cache loader key).2.1, false) ∧
    (∀ (c : HFCache α) (k : String) (kv : String × α),
      kv ∈ c → kv ∈ (hfGetModel c loader k).2.1) ∧
    hfCheckpointKey "huggingface/codellama/CodeLlama-7b-hf" =
      some "codellama/CodeLlama-7b-hf" := by
  refine ⟨?_, ?_, ?_, rfl⟩
  · simp [hfGetModel, hmiss]
  · simp [hfGetModel, hmiss, List.lookup]
  · intro c k kv hkv
    unfold hfGetModel
    rcases h : c.lookup k with _ | p
    · simp [hkv]
    · simpa using hkv

/-- Witness for C9: on an empty cache, the first request for
"huggingface/x" loads and the second is served from cache. -/
theorem C9_cache_single_load_witness :
    (hfGetModel ([] : HFCache Nat) (fun _ => 7) "x").2.2 = true ∧
    hfGetModel (hfGetModel ([] : HFCache Nat) (fun _ => 7) "x").2.1 (fun _ => 7) "x" =
      ((hfGetModel ([] : HFCache Nat) (fun _ => 7) "x").1,
       (hfGetModel ([] : HFCache Nat) (fun _ => 7) "x").2.1, false) :=
  ⟨(C9_cache_single_load [] (fun _ => 7) "huggingface/x" "x" rfl rfl).1,
   (C9_cache_single_load [] (fun _ => 7) "huggingface/x" "x" rfl rfl).2.1⟩

/-- C10: `get_gpt_output` ignores `return_raw` entirely — its result is the
same for any two values of the flag — and its returned value is never the
raw backend-native object (contrast: the Claude-style caller with
`return_raw` set does return the raw object). -/
theorem C10_return_raw_ignored (b : Backend) (jo : Bool) (mr : Nat) (rr₁ rr₂ : Bool) :
    gptRun b jo mr rr₁ = gptRun b jo mr rr₂ ∧
    isRawOutcome (gptRun b jo mr rr₁).outcome = false ∧
    claudeRun true (fun _ => .ok ⟨"raw"⟩) false true 1 =
      ⟨.ok (.vraw ⟨"raw"⟩), 1, 0⟩ :=
  ⟨rfl, gptLoop_notRaw b jo mr 0 0 0 .unbound, rfl⟩
